import Mathlib

/-!
Shallow embedding of the board navigation and rendering state machine of
`src/main.rs` (a kanban-style terminal task dashboard), together with
theorems settling the specification claims about it.

Conventions of the embedding:
* Rust `panic!`/`expect` (a fatal abort) is modelled by `Except.error msg`
  where `msg` is the `expect` message, or the overflow-check message for an
  underflowing `usize` subtraction (debug-profile semantics).
* The backing JSON store is modelled by its parsed contents
  (`List Todo`); the fallible read/parse pipeline of
  `read_db_by_todo_status` is modelled by an explicit read result and an
  explicit parse function.
* `chrono::DateTime<Utc>` is external; `created_at` is modelled as an
  opaque `String`.
-/

/-- `enum TodoStatus { Todo, Done, Doing }` from `src/main.rs` (derives
`PartialEq`, i.e. structural equality). -/
inductive TodoStatus
| Todo
| Done
| Doing
deriving DecidableEq

/-- `struct Todo` from `src/main.rs`: one persisted task record. -/
structure Todo where
  id : Nat
  title : String
  description : String
  category : String
  status : TodoStatus
  created_at : String
deriving DecidableEq

/-- `enum MenuItem { Home, Todos, Timers, TimeTracking }` from `src/main.rs`. -/
inductive MenuItem
| Home
| Todos
| Timers
| TimeTracking
deriving DecidableEq

/-- `impl From<MenuItem> for usize` from `src/main.rs`. -/
def menuItemIndex (input : MenuItem) : Nat :=
  match input with
  | .Home => 0
  | .Todos => 1
  | .Timers => 2
  | .TimeTracking => 3

/-- `enum Error` from `src/main.rs`: `ReadDBError` wraps the io error of
`fs::read_to_string` (the spec's `StoreUnavailable`), `ParseDBError` wraps
the serde error (the spec's `StoreCorrupt`). Payloads are modelled as the
underlying error messages. -/
inductive Error
| ReadDBError (msg : String)
| ParseDBError (msg : String)
deriving DecidableEq

/-- The filtering core of `read_db_by_todo_status`:
`parsed.iter().filter(|s| s.status == status).cloned().collect()`. -/
def filterByStatus (parsed : List Todo) (status : TodoStatus) : List Todo :=
  parsed.filter (fun s => decide (s.status = status))

/-- `fn read_db_by_todo_status(status) -> Result<Vec<Todo>, Error>` from
`src/main.rs`. `db_read` models the outcome of `fs::read_to_string(DB_PATH)`
(the `?` on an io error becomes `Error::ReadDBError`), `parse` models
`serde_json::from_str` (the `?` on a parse error becomes
`Error::ParseDBError`). -/
def read_db_by_todo_status (db_read : Except String String)
    (parse : String → Except String (List Todo)) (status : TodoStatus) :
    Except Error (List Todo) :=
  match db_read with
  | .error e => .error (.ReadDBError e)
  | .ok db_content =>
    match parse db_content with
    | .error e => .error (.ParseDBError e)
    | .ok parsed => .ok (filterByStatus parsed status)

/-- The selected-task resolution inside `render_todos` (`src/main.rs:429-436`):
`todo_list.get(todo_list_state.selected().expect("there is always a selected
todo")).expect("exists").clone()`. Each `expect` is a panic, modelled as
`Except.error` carrying the `expect` message. -/
def selected_todo (todo_list : List Todo) (sel : Option Nat) : Except String Todo :=
  match sel with
  | none => .error "there is always a selected todo"
  | some i =>
    match todo_list.get? i with
    | none => .error "exists"
    | some t => .ok t

/-- The `KeyCode::Char('j')` handler (`src/main.rs:296-307`) as a cursor
transition: if nothing is selected the handler body is skipped; otherwise
`amount_todos - 1` is an overflow-checked `usize` subtraction (panics when
`count == 0`), and the cursor wraps to `0` past the end or advances by one. -/
def advance (sel : Option Nat) (count : Nat) : Except String (Option Nat) :=
  match sel with
  | none => .ok none
  | some selected =>
    if count = 0 then .error "attempt to subtract with overflow"
    else if selected ≥ count - 1 then .ok (some 0)
    else .ok (some (selected + 1))

/-- The `KeyCode::Char('k')` handler (`src/main.rs:308-319`) as a cursor
transition: if nothing is selected the handler body is skipped; otherwise a
positive index decrements, and index `0` wraps to `amount_todos - 1`, an
overflow-checked `usize` subtraction (panics when `count == 0`). -/
def retreat (sel : Option Nat) (count : Nat) : Except String (Option Nat) :=
  match sel with
  | none => .ok none
  | some selected =>
    if selected > 0 then .ok (some (selected - 1))
    else if count = 0 then .error "attempt to subtract with overflow"
    else .ok (some (count - 1))

/-- Iterated `advance` with a fixed filtered-list length, propagating a panic. -/
def iterateAdvance : Nat → Option Nat → Nat → Except String (Option Nat)
  | 0, sel, _ => .ok sel
  | n + 1, sel, count =>
    match advance sel count with
    | .error e => .error e
    | .ok sel2 => iterateAdvance n sel2 count

/-- Iterated `retreat` with a fixed filtered-list length, propagating a panic. -/
def iterateRetreat : Nat → Option Nat → Nat → Except String (Option Nat)
  | 0, sel, _ => .ok sel
  | n + 1, sel, count =>
    match retreat sel count with
    | .error e => .error e
    | .ok sel2 => iterateRetreat n sel2 count

/-- The mutable state of `main`'s event loop: the active screen
(`active_menu_item`) and the three `ListState` column cursors, each an
optional selected index. -/
structure AppState where
  active_menu_item : MenuItem
  todo_list_state : Option Nat
  doing_list_state : Option Nat
  done_list_state : Option Nat
deriving DecidableEq

/-- The state just before the event loop starts (`src/main.rs:117-124`):
screen `Home`, the Todo cursor selected at `0`, the Doing and Done cursors
left at the `ListState::default()` of no selection. -/
def initialAppState : AppState :=
  { active_menu_item := .Home
    todo_list_state := some 0
    doing_list_state := none
    done_list_state := none }

/-- The key codes distinguished by the `match event.code` of the event loop;
every other key falls into the wildcard arm, modelled by `Other`. -/
inductive KeyCode
| Char (c : Char)
| Left
| Right
| Up
| Down
| Other
deriving DecidableEq

/-- `enum Event<I> { Input(I), Tick }` from `src/main.rs`, specialised to
key events. -/
inductive Event'
| Input (k : KeyCode)
| Tick
deriving DecidableEq

/-- One dispatch of the event loop's `match rx.recv()?` (`src/main.rs:263-337`).
`db` is the parsed contents of the backing store at the moment the handler
queries it (the `expect("can fetch todo list")` on a store failure aborts
before any state mutation and is outside this transition). `Char 'q'` breaks
the loop and mutates nothing; a `Tick` only triggers a re-render. -/
def step (s : AppState) (e : Event') (db : List Todo) : Except String AppState :=
  match e with
  | .Tick => .ok s
  | .Input k =>
    match k with
    | .Left => .ok s
    | .Right => .ok s
    | .Up => .ok s
    | .Down => .ok s
    | .Other => .ok s
    | .Char c =>
      if c = 'q' then .ok s
      else if c = 'w' then .ok { s with active_menu_item := .Home }
      else if c = 't' then .ok { s with active_menu_item := .Todos }
      else if c = 'i' then .ok { s with active_menu_item := .Timers }
      else if c = 'm' then .ok { s with active_menu_item := .TimeTracking }
      else if c = 'h' then .ok s
      else if c = 'j' then
        (advance s.todo_list_state (filterByStatus db .Todo).length).map
          (fun t => { s with todo_list_state := t })
      else if c = 'k' then
        (retreat s.todo_list_state (filterByStatus db .Todo).length).map
          (fun t => { s with todo_list_state := t })
      else if c = 'l' then
        match s.todo_list_state with
        | some _ => .ok { s with doing_list_state := some 0 }
        | none =>
          match s.doing_list_state with
          | some _ => .ok { s with done_list_state := some 0 }
          | none => .ok s
      else .ok s

/-- Runs the event loop over a list of events, each paired with the parsed
store contents the handler would observe for it (the store is re-read on
every query, so contents may differ between events). A panic stops the run. -/
def runEvents : AppState → List (Event' × List Todo) → Except String AppState
  | s, [] => .ok s
  | s, (e, db) :: rest =>
    match step s e db with
    | .error msg => .error msg
    | .ok s2 => runEvents s2 rest

/-- The data of the detail table row built in `render_todos`
(`src/main.rs:459-465`): id, title, description, category, created_at of the
resolved task. -/
def todoDetailRow (t : Todo) : Nat × String × String × String × String :=
  (t.id, t.title, t.description, t.category, t.created_at)

/-- The data content of the four widgets returned by `render_todos`: the
three column item lists (task titles) and the detail row. -/
structure TodosRender where
  list_todo : List String
  list_doing : List String
  list_done : List String
  todo_detail : Nat × String × String × String × String
deriving DecidableEq

/-- `fn render_todos` (`src/main.rs:370-504`) as a projection from the parsed
store contents and the three cursor states to widget data. The three columns
are the status-filtered lists; the detail row comes from `selected_todo`
applied to the Todo-status list and the Todo cursor, whose panic propagates. -/
def render_todos (db : List Todo)
    (todo_list_state doing_list_state done_list_state : Option Nat) :
    Except String TodosRender :=
  let todo_list := filterByStatus db .Todo
  let doing_list := filterByStatus db .Doing
  let done_list := filterByStatus db .Done
  (selected_todo todo_list todo_list_state).map (fun t =>
    { list_todo := todo_list.map Todo.title
      list_doing := doing_list.map Todo.title
      list_done := done_list.map Todo.title
      todo_detail := todoDetailRow t })

/-- `let menu_titles = vec!["Home", "Todos", "Timers", "TimeTracking", "Quit"]`. -/
def menu_titles : List String := ["Home", "Todos", "Timers", "TimeTracking", "Quit"]

/-- The menu hotkey-highlight assignment (`src/main.rs:153-201`): per label,
`split_at` yields its first three one-character slices (panicking on a label
shorter than three characters, modelled by `none`); the first of them not yet
in `hotkey_set` is highlighted and inserted (the third is taken and inserted
unconditionally when the first two are taken). Returns the highlighted
character of each label in order. -/
def hotkey_highlights (hotkey_set : List Char) : List (List Char) → Option (List Char)
  | [] => some []
  | t :: rest =>
    match t with
    | first :: second :: third :: _ =>
      if first ∉ hotkey_set then
        (hotkey_highlights (first :: hotkey_set) rest).map (fun hs => first :: hs)
      else if second ∉ hotkey_set then
        (hotkey_highlights (second :: hotkey_set) rest).map (fun hs => second :: hs)
      else
        (hotkey_highlights (third :: hotkey_set) rest).map (fun hs => third :: hs)
    | _ => none

/-- Concrete task with id 1 and status `Todo`, for scenario instances. -/
def task1 : Todo :=
  { id := 1, title := "t1", description := "d1", category := "c1",
    status := .Todo, created_at := "2023-01-01T00:00:00Z" }

/-- Concrete task with id 2 and status `Todo`, for scenario instances. -/
def task2 : Todo :=
  { id := 2, title := "t2", description := "d2", category := "c2",
    status := .Todo, created_at := "2023-01-02T00:00:00Z" }

/-- Concrete task with id 3 and status `Doing`, for scenario instances. -/
def task3 : Todo :=
  { id := 3, title := "t3", description := "d3", category := "c3",
    status := .Doing, created_at := "2023-01-03T00:00:00Z" }

/-- The invariant of claim C9 on one cursor: never moved past the top. -/
def cursorAtTop (c : Option Nat) : Prop := c = none ∨ c = some 0

/-- The invariant of claim C9 on a state: the Doing and Done cursors are each
either unselected or at index 0. -/
def doingDoneInv (s : AppState) : Prop :=
  cursorAtTop s.doing_list_state ∧ cursorAtTop s.done_list_state

/-- On a list of positive length, `advance` from a valid index steps to the
successor modulo the length. -/
theorem advance_some (N i : Nat) (hN : 0 < N) (hi : i < N) :
    advance (some i) N = .ok (some ((i + 1) % N)) := by
  simp only [advance]
  rw [if_neg (by omega)]
  by_cases h : i ≥ N - 1
  · rw [if_pos h]
    have hiN : i = N - 1 := by omega
    subst hiN
    have hs : N - 1 + 1 = N := by omega
    rw [hs, Nat.mod_self]
  · rw [if_neg h]
    rw [Nat.mod_eq_of_lt (by omega)]

/-- On a list of positive length, `retreat` from a valid index steps to the
predecessor modulo the length. -/
theorem retreat_some (N i : Nat) (hN : 0 < N) (hi : i < N) :
    retreat (some i) N = .ok (some ((i + (N - 1)) % N)) := by
  simp only [retreat]
  by_cases h : i > 0
  · rw [if_pos h]
    have hsplit : i + (N - 1) = (i - 1) + N := by omega
    rw [hsplit, Nat.add_mod_right, Nat.mod_eq_of_lt (by omega)]
  · rw [if_neg h]
    rw [if_neg (by omega)]
    have hz : i = 0 := by omega
    subst hz
    rw [Nat.zero_add, Nat.mod_eq_of_lt (by omega)]

/-- Closed form of iterated `advance` on a list of positive length. -/
theorem iterateAdvance_some (N : Nat) (hN : 0 < N) :
    ∀ (n i : Nat), i < N → iterateAdvance n (some i) N = .ok (some ((i + n) % N)) := by
  intro n
  induction n with
  | zero =>
    intro i hi
    simp [iterateAdvance, Nat.mod_eq_of_lt hi]
  | succ m ih =>
    intro i hi
    simp only [iterateAdvance, advance_some N i hN hi]
    rw [ih ((i + 1) % N) (Nat.mod_lt _ hN)]
    have hmod : ((i + 1) % N + m) % N = (i + (m + 1)) % N := by
      rw [Nat.mod_add_mod]
      congr 1
      omega
    rw [hmod]

/-- Closed form of iterated `retreat` on a list of positive length. -/
theorem iterateRetreat_some (N : Nat) (hN : 0 < N) :
    ∀ (n i : Nat), i < N →
      iterateRetreat n (some i) N = .ok (some ((i + n * (N - 1)) % N)) := by
  intro n
  induction n with
  | zero =>
    intro i hi
    simp [iterateRetreat, Nat.mod_eq_of_lt hi]
  | succ m ih =>
    intro i hi
    simp only [iterateRetreat, retreat_some N i hN hi]
    rw [ih ((i + (N - 1)) % N) (Nat.mod_lt _ hN)]
    have hmod : ((i + (N - 1)) % N + m * (N - 1)) % N = (i + (m + 1) * (N - 1)) % N := by
      rw [Nat.mod_add_mod]
      have harith : i + (N - 1) + m * (N - 1) = i + (m + 1) * (N - 1) := by
        rw [Nat.succ_mul]
        generalize m * (N - 1) = P
        omega
      rw [harith]
    rw [hmod]

/-- C1 (amended): resolving the selected task returns the task at the cursor
index when the cursor holds an in-bounds index; when the cursor is
`Unselected` or the index is out of bounds it is a fatal `expect` panic, not
a `None` result. -/
theorem c1_selected_todo_resolution (list : List Todo) (i : Nat) :
    selected_todo list none = .error "there is always a selected todo"
    ∧ (∀ h : i < list.length, selected_todo list (some i) = .ok (list.get ⟨i, h⟩))
    ∧ (list.length ≤ i → selected_todo list (some i) = .error "exists") := by
  refine ⟨rfl, ?_, ?_⟩
  · intro h
    simp [selected_todo, List.getElem?_eq_getElem h]
  · intro h
    simp [selected_todo, List.getElem?_eq_none h]

/-- Witness for C1 (amended) at concrete inputs: an in-bounds cursor resolves
to the task, an out-of-bounds cursor panics. -/
theorem c1_witness :
    selected_todo [task1] (some 0) = .ok task1
    ∧ selected_todo [task2, task3] (some 2) = .error "exists" := by
  constructor
  · have h := (c1_selected_todo_resolution [task1] 0).2.1 (by decide)
    simpa using h
  · exact (c1_selected_todo_resolution [task2, task3] 2).2.2 (by decide)

/-- C1 counterexample: with any list (here the empty one) and the cursor
`Unselected`, the resolution is the fatal panic
`expect("there is always a selected todo")`, not a non-fatal `None` — the
claim's "never a fatal error, for any cursor state" is false. -/
theorem c1_counterexample :
    selected_todo ([] : List Todo) none = .error "there is always a selected todo" := rfl

/-- C2 (amended): with an empty filtered list, `advance`/`retreat` leave an
`Unselected` cursor `Unselected` (the handler body is skipped), but with a
selected cursor they never resolve to `Unselected`: `advance` panics on the
underflowing `count - 1`, `retreat` panics at index 0 and at a positive index
decrements to a stale out-of-range index. -/
theorem c2_empty_list_navigation (i : Nat) :
    advance none 0 = .ok none
    ∧ retreat none 0 = .ok none
    ∧ advance (some i) 0 = .error "attempt to subtract with overflow"
    ∧ retreat (some 0) 0 = .error "attempt to subtract with overflow"
    ∧ (0 < i → retreat (some i) 0 = .ok (some (i - 1))) := by
  refine ⟨rfl, rfl, rfl, rfl, ?_⟩
  intro h
  simp [retreat, h]

/-- Witness for C2 (amended): retreating on an empty list from index 2 yields
the stale out-of-range index 1. -/
theorem c2_witness : retreat (some 2) 0 = .ok (some 1) :=
  (c2_empty_list_navigation 2).2.2.2.2 (by decide)

/-- C2 counterexample: advancing on an empty filtered list with the cursor at
index 0 (the initial state of the Todo cursor) panics on the overflow-checked
`usize` subtraction `amount_todos - 1`, instead of yielding `Unselected`. -/
theorem c2_counterexample :
    advance (some 0) 0 = .error "attempt to subtract with overflow" := rfl

/-- C3 (amended): when the filtered list used to resolve a cursor has length
at most the stored index (in particular after shrinking from `L` to
`L' ≤ i`), the next resolution is the fatal panic `expect("exists")` — it
does not clamp to `L' - 1` and does not resolve to `Unselected`. -/
theorem c3_shrink_resolution (list : List Todo) (i : Nat) (h : list.length ≤ i) :
    selected_todo list (some i) = .error "exists" := by
  simp [selected_todo, List.getElem?_eq_none h]

/-- Witness for C3 (amended): resolving a stale cursor index 5 against a
two-element list panics. -/
theorem c3_witness : selected_todo [task1, task2] (some 5) = .error "exists" :=
  c3_shrink_resolution [task1, task2] 5 (by decide)

/-- C3 counterexample: the list shrank from length 2 to `[task1]` (length
`L' = 1`) while the cursor holds `i = 1 ≥ L'`; the claim says the next
resolution returns index `L' - 1 = 0` (task1) and never panics, but the code
panics with `expect("exists")`. -/
theorem c3_counterexample : selected_todo [task1] (some 1) = .error "exists" := rfl

/-- C4: on a non-empty filtered list of length `N`, from any valid starting
index, `N` advances return the cursor to its start, and likewise `N`
retreats (cyclic wrap-around), with no panic. -/
theorem c4_cycle (N i : Nat) (hN : 0 < N) (hi : i < N) :
    iterateAdvance N (some i) N = .ok (some i)
    ∧ iterateRetreat N (some i) N = .ok (some i) := by
  constructor
  · rw [iterateAdvance_some N hN N i hi, Nat.add_mod_right, Nat.mod_eq_of_lt hi]
  · rw [iterateRetreat_some N hN N i hi, Nat.add_mul_mod_self_left, Nat.mod_eq_of_lt hi]

/-- Witness for C4: three advances (and three retreats) on a three-element
list starting at index 1 return to index 1. -/
theorem c4_witness :
    iterateAdvance 3 (some 1) 3 = .ok (some 1)
    ∧ iterateRetreat 3 (some 1) 3 = .ok (some 1) :=
  c4_cycle 3 1 (by decide) (by decide)

/-- C5: dispatching a screen-switch keypress (`w`, `t`, `i`, `m`) changes
only the active screen selection; the stored indices of the Todo, Doing and
Done cursors are exactly those of the incoming state. -/
theorem c5_screen_switch_preserves_cursors (s : AppState) (db : List Todo) :
    step s (.Input (.Char 'w')) db = .ok { s with active_menu_item := .Home }
    ∧ step s (.Input (.Char 't')) db = .ok { s with active_menu_item := .Todos }
    ∧ step s (.Input (.Char 'i')) db = .ok { s with active_menu_item := .Timers }
    ∧ step s (.Input (.Char 'm')) db = .ok { s with active_menu_item := .TimeTracking } :=
  ⟨rfl, rfl, rfl, rfl⟩

/-- C6: on a readable store whose contents parse to `db`,
`read_db_by_todo_status` succeeds with exactly the tasks of `db` whose
status equals the argument, in persisted order (an order-preserving sublist
containing precisely the matching tasks); and on the scenario store
`[{id 1, Todo}, {id 2, Todo}, {id 3, Doing}]` the `Todo` query returns
`[task1, task2]` in that order. -/
theorem c6_list_by_status (db_content : String)
    (parse : String → Except String (List Todo)) (db : List Todo)
    (st : TodoStatus) (hp : parse db_content = .ok db) :
    read_db_by_todo_status (.ok db_content) parse st = .ok (filterByStatus db st)
    ∧ (filterByStatus db st).Sublist db
    ∧ (∀ t, t ∈ filterByStatus db st ↔ t ∈ db ∧ t.status = st)
    ∧ filterByStatus [task1, task2, task3] .Todo = [task1, task2] := by
  refine ⟨?_, ?_, ?_, rfl⟩
  · simp [read_db_by_todo_status, hp]
  · exact List.filter_sublist _
  · intro t
    simp [filterByStatus, List.mem_filter]

/-- Witness for C6 at a concrete store: the parse yields the scenario list
and the `Todo` query succeeds with its filtered contents. -/
theorem c6_witness :
    read_db_by_todo_status (.ok "db") (fun _ => .ok [task1, task2, task3]) .Todo
      = .ok (filterByStatus [task1, task2, task3] .Todo) :=
  (c6_list_by_status "db" (fun _ => .ok [task1, task2, task3])
    [task1, task2, task3] .Todo rfl).1

/-- C7: on the label set `["Home", "Todos", "Timers", "TimeTracking", "Quit"]`
the hotkey-highlight assignment produces exactly one highlighted character
per label, namely `H`, `T`, `i`, `m`, `Q`; these are pairwise distinct and
each is drawn from its own label's first three characters. -/
theorem c7_hotkey_assignment :
    hotkey_highlights [] (menu_titles.map String.toList)
      = some ['H', 'T', 'i', 'm', 'Q']
    ∧ (['H', 'T', 'i', 'm', 'Q'] : List Char).Nodup
    ∧ 'H' ∈ "Home".toList.take 3
    ∧ 'T' ∈ "Todos".toList.take 3
    ∧ 'i' ∈ "Timers".toList.take 3
    ∧ 'm' ∈ "TimeTracking".toList.take 3
    ∧ 'Q' ∈ "Quit".toList.take 3 := by
  exact ⟨by rfl, by decide, by decide, by decide, by decide, by decide, by decide⟩

/-- C8: `read_db_by_todo_status` fails with `ReadDBError` (the spec's
`StoreUnavailable`) exactly when the backing resource cannot be read, with
`ParseDBError` (the spec's `StoreCorrupt`) exactly when the resource is
readable but its contents do not parse, and succeeds exactly when the
resource is readable and parseable. -/
theorem c8_error_taxonomy (db_read : Except String String)
    (parse : String → Except String (List Todo)) (st : TodoStatus) :
    ((∃ e, read_db_by_todo_status db_read parse st = .error (.ReadDBError e))
      ↔ (∃ e, db_read = .error e))
    ∧ ((∃ e, read_db_by_todo_status db_read parse st = .error (.ParseDBError e))
      ↔ (∃ c, db_read = .ok c ∧ ∃ e, parse c = .error e))
    ∧ ((∃ l, read_db_by_todo_status db_read parse st = .ok l)
      ↔ (∃ c, db_read = .ok c ∧ ∃ l2, parse c = .ok l2)) := by
  cases db_read with
  | error e => simp [read_db_by_todo_status]
  | ok c =>
    cases hp : parse c with
    | error e => simp [read_db_by_todo_status, hp]
    | ok l => simp [read_db_by_todo_status, hp]

/-- One event dispatch preserves the C9 invariant: no handler moves the
Doing or Done cursor past index 0. -/
theorem step_preserves_inv (s : AppState) (e : Event') (db : List Todo) (s2 : AppState)
    (hinv : doingDoneInv s) (h : step s e db = .ok s2) : doingDoneInv s2 := by
  cases e with
  | Tick =>
    simp only [step] at h
    injection h with h2
    subst h2
    exact hinv
  | Input k =>
    cases k with
    | Left =>
      simp only [step] at h
      injection h with h2
      subst h2
      exact hinv
    | Right =>
      simp only [step] at h
      injection h with h2
      subst h2
      exact hinv
    | Up =>
      simp only [step] at h
      injection h with h2
      subst h2
      exact hinv
    | Down =>
      simp only [step] at h
      injection h with h2
      subst h2
      exact hinv
    | Other =>
      simp only [step] at h
      injection h with h2
      subst h2
      exact hinv
    | Char c =>
      simp only [step] at h
      split_ifs at h
      all_goals try (injection h with h2; subst h2; exact hinv)
      · rcases hadv : advance s.todo_list_state (filterByStatus db .Todo).length with e2 | t
        · rw [hadv] at h
          simp [Except.map] at h
        · rw [hadv] at h
          simp only [Except.map] at h
          injection h with h2
          subst h2
          exact hinv
      · rcases hret : retreat s.todo_list_state (filterByStatus db .Todo).length with e2 | t
        · rw [hret] at h
          simp [Except.map] at h
        · rw [hret] at h
          simp only [Except.map] at h
          injection h with h2
          subst h2
          exact hinv
      · cases hts : s.todo_list_state with
        | some v =>
          rw [hts] at h
          injection h with h2
          subst h2
          exact ⟨Or.inr rfl, hinv.2⟩
        | none =>
          rw [hts] at h
          cases hds : s.doing_list_state with
          | some v =>
            rw [hds] at h
            injection h with h2
            subst h2
            exact ⟨hds ▸ hinv.1, Or.inr rfl⟩
          | none =>
            rw [hds] at h
            injection h with h2
            subst h2
            exact ⟨Or.inl hds, hinv.2⟩

/-- Running any event sequence preserves the C9 invariant. -/
theorem runEvents_preserves_inv :
    ∀ (evs : List (Event' × List Todo)) (s s2 : AppState),
      doingDoneInv s → runEvents s evs = .ok s2 → doingDoneInv s2 := by
  intro evs
  induction evs with
  | nil =>
    intro s s2 hinv h
    injection h with h2
    subst h2
    exact hinv
  | cons p rest ih =>
    intro s s2 hinv h
    obtain ⟨e, db⟩ := p
    simp only [runEvents] at h
    rcases hs : step s e db with msg | s1
    · rw [hs] at h
      simp at h
    · rw [hs] at h
      exact ih s1 s2 (step_preserves_inv s e db s1 hinv hs) h

/-- C9: in every state reachable from the initial state by dispatching any
sequence of events (each with the store contents it observed), the Doing
cursor and the Done cursor are each either unselected or at index 0 —
`j`/`k` only mutate the Todo cursor and `l` only ever sets a cursor to 0. -/
theorem c9_doing_done_invariant (evs : List (Event' × List Todo)) (s2 : AppState)
    (h : runEvents initialAppState evs = .ok s2) :
    (s2.doing_list_state = none ∨ s2.doing_list_state = some 0)
    ∧ (s2.done_list_state = none ∨ s2.done_list_state = some 0) :=
  runEvents_preserves_inv evs initialAppState s2 ⟨Or.inl rfl, Or.inl rfl⟩ h

/-- Witness for C9: after pressing `l` (which gives the Doing column a
cursor) and then `t`, the reached state keeps both cursors at the top. -/
theorem c9_witness :
    ((AppState.mk .Todos (some 0) (some 0) none).doing_list_state = none
      ∨ (AppState.mk .Todos (some 0) (some 0) none).doing_list_state = some 0)
    ∧ ((AppState.mk .Todos (some 0) (some 0) none).done_list_state = none
      ∨ (AppState.mk .Todos (some 0) (some 0) none).done_list_state = some 0) :=
  c9_doing_done_invariant [(.Input (.Char 'l'), []), (.Input (.Char 't'), [])]
    (AppState.mk .Todos (some 0) (some 0) none) (by rfl)

/-- C10: the rendered output of the Todos screen, in particular its detail
row, does not depend on the Doing or Done cursor; the detail row is exactly
the resolution of the Todo cursor against the Todo-status filtered list. -/
theorem c10_detail_from_todo_cursor (db : List Todo) (ts ds dns ds2 dns2 : Option Nat) :
    render_todos db ts ds dns = render_todos db ts ds2 dns2
    ∧ (render_todos db ts ds dns).map TodosRender.todo_detail
      = (selected_todo (filterByStatus db .Todo) ts).map todoDetailRow := by
  refine ⟨rfl, ?_⟩
  rcases hsel : selected_todo (filterByStatus db .Todo) ts with e | t
  · simp [render_todos, hsel, Except.map]
  · simp [render_todos, hsel, Except.map]
